import Mathlib

/-!
Shallow embedding of the CONAB-data-pull repository (files `data_service.py`,
`main.py`, `models.py`).  The service keeps an in-memory cache (a Python dict,
modelled as an insertion-ordered association list), a `last_updated` map of
timestamps, and serves static fallback tables.  Python floats are modelled as
exact rationals, `datetime.now()` is passed in explicitly as a `PyDateTime`
argument, and every operation is a pure function from service state (plus the
current time) to a response paired with the successor state.
-/

attribute [local semireducible] Rat.mul Rat.inv Rat.add Rat.sub Rat.ofScientific

/-- A Python `dict` with string keys: an insertion-ordered association list. -/
abbrev Dict (α : Type) := List (String × α)

/-- `d.get(k)` / `k in d`: first (and only) binding of `k`. -/
def dlookup {α : Type} : Dict α → String → Option α
  | [], _ => none
  | (k', v) :: rest, k => if k' = k then some v else dlookup rest k

/-- `d[k] = v`: overwrite in place if present, append otherwise
(Python dicts preserve insertion order and keep the slot on overwrite). -/
def dset {α : Type} : Dict α → String → α → Dict α
  | [], k, v => [(k, v)]
  | (k', v') :: rest, k, v =>
      if k' = k then (k, v) :: rest else (k', v') :: dset rest k v

/-- `list(d.keys())`. -/
def dkeys {α : Type} (m : Dict α) : List String := m.map Prod.fst

/-- A Python `datetime.datetime` value (naive, microsecond precision). -/
structure PyDateTime where
  year : ℕ
  month : ℕ
  day : ℕ
  hour : ℕ
  minute : ℕ
  second : ℕ
  microsecond : ℕ
deriving DecidableEq

/-- Python's banker's rounding to an integer (`round(q)`):
nearest integer, ties to the even one. -/
def roundHalfEven (q : ℚ) : ℤ :=
  let f := ⌊q⌋
  let r := q - (f : ℚ)
  if r < 1/2 then f
  else if 1/2 < r then f + 1
  else if f % 2 = 0 then f else f + 1

/-- Python's `round(q, ndigits)`. -/
def pyRound (ndigits : ℕ) (q : ℚ) : ℚ :=
  ((roundHalfEven (q * 10 ^ ndigits) : ℚ)) / 10 ^ ndigits

/-- Python's `l[-n:]` for a nonnegative count `n`
(`l[-0:]` is the whole list, hence the case split). -/
def pyTakeLast {α : Type} (l : List α) (n : ℕ) : List α :=
  if n = 0 then l else l.drop (l.length - n)

/-- `NCM_CODES` from `data_service.py`. -/
def NCM_CODES : Dict String :=
  [("soybeans", "1201"), ("corn", "1005"), ("soy_meal", "2304"),
   ("soy_oil", "1507"), ("wheat", "1001")]

/-- `MONTH_NAMES` from `data_service.py`. -/
def MONTH_NAMES : List String :=
  ["Jan", "Feb", "Mar", "Apr", "May", "Jun",
   "Jul", "Aug", "Sep", "Oct", "Nov", "Dec"]

/-- The `Commodity` enumeration of `main.py` (also the key set of `NCM_CODES`). -/
def supportedCommodities : List String :=
  ["soybeans", "corn", "soy_meal", "soy_oil", "wheat"]

/-- One balance-sheet row (`models.BalanceSheetRow`; the Python fallback dicts
omit `isProjection` when false). -/
structure BalanceSheetRow where
  year : String
  openingStock : ℚ
  production : ℚ
  imports : ℚ
  consumption : ℚ
  exports : ℚ
  endingStock : ℚ
  isProjection : Bool := false
deriving DecidableEq

/-- One monthly-export row (`models.MonthlyExportRow`). -/
structure MonthlyExportRow where
  year : ℤ
  month : ℕ
  monthName : String
  volumeMt : ℚ
  volumeMmt : ℚ
  valueUsd : ℚ
  toChinaMt : Option ℚ
  toChinaPct : Option ℚ
  isPartial : Bool
deriving DecidableEq

/-- A cache slot.  The Python cache dict is untyped; the service only ever
stores balance-sheet row lists under `balance_*` keys and monthly-export row
lists under `exports_*` keys, which this sum type records. -/
inductive CacheVal where
  | bal (rows : List BalanceSheetRow)
  | exps (rows : List MonthlyExportRow)
deriving DecidableEq

/-- The mutable fields of `BrazilAgDataService`. -/
structure ServiceState where
  cache : Dict CacheVal
  last_updated : Dict PyDateTime
  initialized : Bool
deriving DecidableEq

/-- `BrazilAgDataService.__init__`. -/
def initState : ServiceState := { cache := [], last_updated := [], initialized := false }

/-- The static table inside `_get_balance_sheet_fallback` (CONAB Table 14). -/
def balance_sheet_fallback_table : Dict (List BalanceSheetRow) :=
  [("soybeans",
    [{ year := "2020/21", openingStock := 25/10, production := 1359/10, imports := 4/10,
       consumption := 488/10, exports := 861/10, endingStock := 39/10 },
     { year := "2021/22", openingStock := 39/10, production := 1255/10, imports := 3/10,
       consumption := 514/10, exports := 787/10, endingStock := -(4/10) },
     { year := "2022/23", openingStock := -(4/10), production := 1546/10, imports := 2/10,
       consumption := 539/10, exports := 980/10, endingStock := 25/10 },
     { year := "2023/24", openingStock := 25/10, production := 1474/10, imports := 3/10,
       consumption := 558/10, exports := 924/10, endingStock := 20/10 },
     { year := "2024/25", openingStock := 7231/1000, production := 171481/1000, imports := 969/1000,
       consumption := 60769/1000, exports := 108181/1000, endingStock := 10731/1000 },
     { year := "2025/26", openingStock := 10731/1000, production := 176124/1000, imports := 500/1000,
       consumption := 64266/1000, exports := 111791/1000, endingStock := 11298/1000,
       isProjection := true }]),
   ("corn",
    [{ year := "2020/21", openingStock := 112/10, production := 871/10, imports := 31/10,
       consumption := 715/10, exports := 208/10, endingStock := 91/10 },
     { year := "2021/22", openingStock := 91/10, production := 1131/10, imports := 18/10,
       consumption := 770/10, exports := 447/10, endingStock := 23/10 },
     { year := "2022/23", openingStock := 23/10, production := 1319/10, imports := 16/10,
       consumption := 830/10, exports := 520/10, endingStock := 8/10 },
     { year := "2023/24", openingStock := 8/10, production := 1157/10, imports := 15/10,
       consumption := 865/10, exports := 325/10, endingStock := -(10/10) },
     { year := "2024/25", openingStock := -(10/10), production := 1397/10, imports := 12/10,
       consumption := 905/10, exports := 400/10, endingStock := 94/10 },
     { year := "2025/26", openingStock := 94/10, production := 1388/10, imports := 10/10,
       consumption := 945/10, exports := 465/10, endingStock := 82/10, isProjection := true }]),
   ("soy_meal",
    [{ year := "2024/25", openingStock := 3367/1000, production := 44044/1000, imports := 0/10,
       consumption := 19500/1000, exports := 23300/1000, endingStock := 4611/1000 },
     { year := "2025/26", openingStock := 4611/1000, production := 46620/1000, imports := 1/1000,
       consumption := 20300/1000, exports := 24696/1000, endingStock := 6236/1000,
       isProjection := true }]),
   ("soy_oil",
    [{ year := "2024/25", openingStock := 465/1000, production := 11426/1000, imports := 105/1000,
       consumption := 10318/1000, exports := 1363/1000, endingStock := 316/1000 },
     { year := "2025/26", openingStock := 316/1000, production := 12155/1000, imports := 100/1000,
       consumption := 10811/1000, exports := 1400/1000, endingStock := 360/1000,
       isProjection := true }]),
   ("wheat",
    [{ year := "2023/24", openingStock := 8/10, production := 81/10, imports := 55/10,
       consumption := 125/10, exports := 3/10, endingStock := 16/10 },
     { year := "2024/25", openingStock := 16/10, production := 79/10, imports := 58/10,
       consumption := 128/10, exports := 2/10, endingStock := 23/10 },
     { year := "2025/26", openingStock := 23/10, production := 85/10, imports := 55/10,
       consumption := 130/10, exports := 3/10, endingStock := 30/10, isProjection := true }])]

/-- `BrazilAgDataService._get_balance_sheet_fallback`: `data.get(commodity, [])`. -/
def get_balance_sheet_fallback (commodity : String) : List BalanceSheetRow :=
  (dlookup balance_sheet_fallback_table commodity).getD []

/-- Response of `get_balance_sheet` (`models.BalanceSheetResponse`). -/
structure BalanceSheetResponse where
  success : Bool
  commodity : String
  unit : String
  source : String
  last_updated : PyDateTime
  data : List BalanceSheetRow
deriving DecidableEq

/-- `BrazilAgDataService.get_balance_sheet`.  On a hit the cached rows are
sliced (`cached[-years:] if len(cached) > years else cached`) and the stored
timestamp is reported (`self.last_updated.get(cache_key, datetime.now())`);
on a miss the fallback rows are stored whole, stamped `now`, and `data[-years:]`
is returned.  A `balance_*` slot only ever holds `CacheVal.bal` rows through
the service's own writes, so a mismatched slot falls to the miss branch. -/
def get_balance_sheet (s : ServiceState) (now : PyDateTime) (commodity : String)
    (years : ℕ) : BalanceSheetResponse × ServiceState :=
  let cache_key := "balance_" ++ commodity
  match dlookup s.cache cache_key with
  | some (CacheVal.bal cached) =>
      ({ success := true, commodity := commodity, unit := "MMT", source := "CONAB",
         last_updated := (dlookup s.last_updated cache_key).getD now,
         data := if cached.length > years then pyTakeLast cached years else cached }, s)
  | _ =>
      let data := get_balance_sheet_fallback commodity
      ({ success := true, commodity := commodity, unit := "MMT", source := "CONAB",
         last_updated := now, data := pyTakeLast data years },
       { s with cache := dset s.cache cache_key (CacheVal.bal data),
                last_updated := dset s.last_updated cache_key now })

/-- The `patterns` table inside `_get_monthly_exports_fallback`
(`patterns.get(commodity, {}).get(year, ...)` returns `none` exactly when the
commodity or the year has no entry). -/
def export_patterns (commodity : String) (year : ℤ) : Option (List ℚ) :=
  if commodity = "soybeans" then
    if year = 2024 then
      some [18/10, 52/10, 128/10, 142/10, 148/10, 132/10, 108/10, 92/10, 78/10, 52/10, 36/10, 20/10]
    else if year = 2025 then
      some [21/10, 60/10, 135/10, 150/10, 155/10, 138/10, 112/10, 96/10, 82/10, 58/10, 40/10, 22/10]
    else none
  else if commodity = "corn" then
    if year = 2024 then
      some [38/10, 32/10, 18/10, 10/10, 6/10, 8/10, 35/10, 75/10, 85/10, 70/10, 55/10, 40/10]
    else if year = 2025 then
      some [40/10, 35/10, 20/10, 12/10, 8/10, 10/10, 40/10, 80/10, 90/10, 75/10, 60/10, 45/10]
    else none
  else if commodity = "soy_meal" then
    if year = 2024 then
      some [18/10, 19/10, 20/10, 21/10, 20/10, 19/10, 18/10, 19/10, 20/10, 21/10, 20/10, 18/10]
    else if year = 2025 then
      some [19/10, 20/10, 21/10, 22/10, 21/10, 20/10, 19/10, 20/10, 21/10, 22/10, 21/10, 19/10]
    else none
  else if commodity = "soy_oil" then
    if year = 2024 then
      some [10/100, 11/100, 12/100, 13/100, 12/100, 11/100, 10/100, 11/100, 12/100, 13/100, 12/100, 10/100]
    else if year = 2025 then
      some [11/100, 12/100, 13/100, 14/100, 13/100, 12/100, 11/100, 12/100, 13/100, 14/100, 13/100, 11/100]
    else none
  else none

/-- `BrazilAgDataService._get_monthly_exports_fallback`.  The month of the
current year matching `datetime.now().month` is scaled by `day_of_month / 30`
and flagged (Python `is_partial`). -/
def get_monthly_exports_fallback (commodity : String) (year : ℤ) (now : PyDateTime) :
    List MonthlyExportRow :=
  let volumes := (export_patterns commodity year).getD (List.replicate 12 5)
  let china_share : ℚ := if commodity = "soybeans" then 77/100 else 2/100
  let current_month : ℕ := if year = (now.year : ℤ) then now.month else 12
  (List.range volumes.length).map (fun month_idx =>
    let month := month_idx + 1
    let vol0 := volumes.getD month_idx 0
    let isPart : Bool := year = (now.year : ℤ) ∧ month = current_month
    let vol := if isPart then vol0 * ((now.day : ℚ) / 30) else vol0
    { year := year, month := month, monthName := MONTH_NAMES.getD month_idx "",
      volumeMt := vol * 1000000,
      volumeMmt := pyRound 2 vol,
      valueUsd := vol * 420000000,
      toChinaMt := if commodity = "soybeans" ∨ commodity = "soy_meal" then
          some (vol * 1000000 * china_share) else none,
      toChinaPct := if commodity = "soybeans" ∨ commodity = "soy_meal" then
          some (china_share * 100) else none,
      isPartial := isPart })

/-- Response of `get_monthly_exports` (`models.MonthlyExportsResponse`). -/
structure MonthlyExportsResponse where
  success : Bool
  commodity : String
  ncmCode : String
  year : ℤ
  source : String
  last_updated : PyDateTime
  data : List MonthlyExportRow
  ytdTotalMmt : ℚ
  ytdToChinaMmt : Option ℚ
deriving DecidableEq

/-- The response assembly at the end of `get_monthly_exports`:
`ytd_total = sum(row.get("volumeMmt", 0) ...)`,
`ytd_china = sum(row.get("toChinaMt", 0) or 0 ...) / 1_000_000 if include_china else None`,
and `round(ytd_china, 2) if ytd_china else None` (Python treats both `None` and
`0.0` as falsy). -/
def monthly_exports_response (commodity : String) (year : ℤ) (include_china : Bool)
    (lu : PyDateTime) (data : List MonthlyExportRow) : MonthlyExportsResponse :=
  let ytd_total := (data.map (fun row => row.volumeMmt)).sum
  let ytd_china : Option ℚ :=
    if include_china then some ((data.map (fun row => row.toChinaMt.getD 0)).sum / 1000000)
    else none
  { success := true, commodity := commodity,
    ncmCode := (dlookup NCM_CODES commodity).getD "",
    year := year, source := "SECEX/MDIC ComexStat", last_updated := lu, data := data,
    ytdTotalMmt := pyRound 2 ytd_total,
    ytdToChinaMmt := match ytd_china with
      | none => none
      | some v => if v = 0 then none else some (pyRound 2 v) }

/-- `BrazilAgDataService.get_monthly_exports`: cached rows are served as-is
with the stored timestamp; on a miss the fallback rows are cached and stamped. -/
def get_monthly_exports (s : ServiceState) (now : PyDateTime) (commodity : String)
    (year : ℤ) (include_china : Bool) : MonthlyExportsResponse × ServiceState :=
  let cache_key := "exports_" ++ commodity ++ "_" ++ toString year
  match dlookup s.cache cache_key with
  | some (CacheVal.exps data) =>
      (monthly_exports_response commodity year include_china
        ((dlookup s.last_updated cache_key).getD now) data, s)
  | _ =>
      let data := get_monthly_exports_fallback commodity year now
      (monthly_exports_response commodity year include_china now data,
       { s with cache := dset s.cache cache_key (CacheVal.exps data),
                last_updated := dset s.last_updated cache_key now })

/-- One production row (`models.ProductionRow`; the fallback dicts carry no
`state` field). -/
structure ProductionRow where
  cropYear : String
  areaMha : ℚ
  productionMmt : ℚ
  yieldMtHa : ℚ
  isProjection : Bool := false
deriving DecidableEq

/-- The static table inside `_get_production_fallback`. -/
def production_fallback_table : Dict (List ProductionRow) :=
  [("soybeans",
    [{ cropYear := "2015/16", areaMha := 333/10, productionMmt := 954/10, yieldMtHa := 287/100 },
     { cropYear := "2016/17", areaMha := 339/10, productionMmt := 1141/10, yieldMtHa := 336/100 },
     { cropYear := "2017/18", areaMha := 351/10, productionMmt := 1193/10, yieldMtHa := 340/100 },
     { cropYear := "2018/19", areaMha := 359/10, productionMmt := 1150/10, yieldMtHa := 321/100 },
     { cropYear := "2019/20", areaMha := 369/10, productionMmt := 1248/10, yieldMtHa := 338/100 },
     { cropYear := "2020/21", areaMha := 385/10, productionMmt := 1359/10, yieldMtHa := 353/100 },
     { cropYear := "2021/22", areaMha := 410/10, productionMmt := 1255/10, yieldMtHa := 306/100 },
     { cropYear := "2022/23", areaMha := 432/10, productionMmt := 1546/10, yieldMtHa := 358/100 },
     { cropYear := "2023/24", areaMha := 451/10, productionMmt := 1474/10, yieldMtHa := 327/100 },
     { cropYear := "2024/25", areaMha := 474/10, productionMmt := 1715/10, yieldMtHa := 362/100 },
     { cropYear := "2025/26", areaMha := 489/10, productionMmt := 1761/10, yieldMtHa := 360/100,
       isProjection := true }]),
   ("corn",
    [{ cropYear := "2015/16", areaMha := 159/10, productionMmt := 641/10, yieldMtHa := 403/100 },
     { cropYear := "2016/17", areaMha := 176/10, productionMmt := 978/10, yieldMtHa := 556/100 },
     { cropYear := "2017/18", areaMha := 166/10, productionMmt := 807/10, yieldMtHa := 486/100 },
     { cropYear := "2018/19", areaMha := 175/10, productionMmt := 1000/10, yieldMtHa := 571/100 },
     { cropYear := "2019/20", areaMha := 185/10, productionMmt := 1025/10, yieldMtHa := 554/100 },
     { cropYear := "2020/21", areaMha := 198/10, productionMmt := 871/10, yieldMtHa := 440/100 },
     { cropYear := "2021/22", areaMha := 214/10, productionMmt := 1131/10, yieldMtHa := 529/100 },
     { cropYear := "2022/23", areaMha := 220/10, productionMmt := 1319/10, yieldMtHa := 599/100 },
     { cropYear := "2023/24", areaMha := 207/10, productionMmt := 1157/10, yieldMtHa := 559/100 },
     { cropYear := "2024/25", areaMha := 222/10, productionMmt := 1397/10, yieldMtHa := 629/100 },
     { cropYear := "2025/26", areaMha := 227/10, productionMmt := 1388/10, yieldMtHa := 612/100,
       isProjection := true }])]

/-- `BrazilAgDataService._get_production_fallback`: `data.get(commodity, [])`. -/
def get_production_fallback (commodity : String) : List ProductionRow :=
  (dlookup production_fallback_table commodity).getD []

/-- Response of `get_production` (`models.ProductionResponse`). -/
structure ProductionResponse where
  success : Bool
  commodity : String
  source : String
  last_updated : PyDateTime
  data : List ProductionRow
deriving DecidableEq

/-- `BrazilAgDataService.get_production`.  No caching, a fresh timestamp on
every call, and the `state` parameter is accepted but never used. -/
def get_production (s : ServiceState) (now : PyDateTime) (commodity : String)
    (years : ℕ) (state : Option String) : ProductionResponse × ServiceState :=
  let data := get_production_fallback commodity
  ({ success := true, commodity := commodity, source := "CONAB SerieHistoricaGraos",
     last_updated := now, data := pyTakeLast data years }, s)

/-- One monthly price row (`models.MonthlyPriceRow`). -/
structure MonthlyPriceRow where
  year : ℤ
  month : ℕ
  monthName : String
  location : String
  priceBrl : ℚ
  priceUsd : ℚ
  momChangePct : ℚ
deriving DecidableEq

/-- The `prices` table inside `_get_prices_fallback`
(`prices.get(commodity, {})`). -/
def prices_table (commodity : String) : Dict (List ℚ) :=
  if commodity = "soybeans" then
    [("MT", [130, 126, 119, 115, 113, 111, 108, 113, 119, 125, 131, 133]),
     ("PR", [140, 136, 129, 125, 123, 121, 118, 123, 129, 135, 141, 143]),
     ("Paranaguá", [150, 146, 139, 135, 133, 131, 128, 133, 139, 145, 151, 153])]
  else if commodity = "corn" then
    [("MT", [58, 56, 50, 49, 46, 45, 43, 46, 48, 53, 57, 59]),
     ("PR", [68, 65, 59, 58, 55, 54, 52, 55, 57, 62, 66, 68])]
  else if commodity = "wheat" then
    [("PR", [88, 85, 82, 80, 78, 77, 79, 82, 85, 88, 91, 93])]
  else []

/-- One iteration of the inner loop of `_get_prices_fallback`:
`prev_price = loc_prices[month_idx - 1] if month_idx > 0 else price` and
`mom_change = ((price - prev_price) / prev_price) * 100 if prev_price else 0`. -/
def price_row (year : ℤ) (loc : String) (loc_prices : List ℚ) (month_idx : ℕ) :
    MonthlyPriceRow :=
  let price := loc_prices.getD month_idx 0
  let prev_price := if month_idx > 0 then loc_prices.getD (month_idx - 1) 0 else price
  let mom_change : ℚ := if prev_price ≠ 0 then ((price - prev_price) / prev_price) * 100 else 0
  { year := year, month := month_idx + 1, monthName := MONTH_NAMES.getD month_idx "",
    location := loc, priceBrl := price, priceUsd := pyRound 2 (price / 6),
    momChangePct := pyRound 1 mom_change }

/-- `BrazilAgDataService._get_prices_fallback`: one 12-row series per location
(`[location]` if one was requested, else every key of the commodity's table),
with `loc_prices = commodity_prices.get(loc, [100] * 12)`. -/
def get_prices_fallback (commodity : String) (year : ℤ) (location : Option String) :
    List MonthlyPriceRow :=
  let commodity_prices := prices_table commodity
  let locations_to_use := match location with
    | some loc => [loc]
    | none => dkeys commodity_prices
  (locations_to_use.map (fun loc =>
    let loc_prices := (dlookup commodity_prices loc).getD (List.replicate 12 100)
    (List.range loc_prices.length).map (price_row year loc loc_prices))).flatten

/-- Response of `get_monthly_prices` (`models.MonthlyPricesResponse`). -/
structure MonthlyPricesResponse where
  success : Bool
  commodity : String
  unit : String
  source : String
  last_updated : PyDateTime
  data : List MonthlyPriceRow
deriving DecidableEq

/-- `BrazilAgDataService.get_monthly_prices`: no caching, fresh timestamp on
every call. -/
def get_monthly_prices (s : ServiceState) (now : PyDateTime) (commodity : String)
    (year : ℤ) (location : Option String) : MonthlyPricesResponse × ServiceState :=
  ({ success := true, commodity := commodity, unit := "BRL/60kg bag",
     source := "CONAB PrecosMensalUF", last_updated := now,
     data := get_prices_fallback commodity year location }, s)

/-- One destination row (`models.ExportDestination`). -/
structure ExportDestination where
  countryCode : String
  countryName : String
  sharePct : ℚ
  volumeMmt : ℚ
  volumeMt : ℚ
  valueUsd : ℚ
deriving DecidableEq

/-- A literal of the `destinations` list plus the loop that adds
`volumeMt = volumeMmt * 1_000_000` and `valueUsd = volumeMmt * 420_000_000`. -/
def mkDestination (code nm : String) (share mmt : ℚ) : ExportDestination :=
  { countryCode := code, countryName := nm, sharePct := share, volumeMmt := mmt,
    volumeMt := mmt * 1000000, valueUsd := mmt * 420000000 }

/-- The static `destinations` table inside `get_exports_by_destination`
(the same soybean breakdown is served for every commodity and year). -/
def destinations : List ExportDestination :=
  [mkDestination "160" "China" (765/10) (825/10),
   mkDestination "270" "Spain" (38/10) (41/10),
   mkDestination "764" "Thailand" (29/10) (31/10),
   mkDestination "573" "Netherlands" (20/10) (22/10),
   mkDestination "792" "Turkey" (19/10) (20/10),
   mkDestination "399" "Japan" (15/10) (16/10),
   mkDestination "364" "Iran" (14/10) (15/10),
   mkDestination "220" "Egypt" (11/10) (12/10),
   mkDestination "586" "Pakistan" (10/10) (11/10),
   mkDestination "000" "Others" (79/10) (85/10)]

/-- Response of `get_exports_by_destination`. -/
structure ExportsByDestinationResponse where
  success : Bool
  commodity : String
  year : ℤ
  source : String
  last_updated : PyDateTime
  totalMmt : ℚ
  data : List ExportDestination
deriving DecidableEq

/-- `BrazilAgDataService.get_exports_by_destination`: no caching, fresh
timestamp; `data` is `destinations[:top_n]`. -/
def get_exports_by_destination (s : ServiceState) (now : PyDateTime) (commodity : String)
    (year : ℤ) (top_n : ℕ) : ExportsByDestinationResponse × ServiceState :=
  let total := (destinations.map (fun d => d.volumeMmt)).sum
  ({ success := true, commodity := commodity, year := year,
     source := "SECEX/MDIC ComexStat", last_updated := now,
     totalMmt := pyRound 1 total, data := destinations.take top_n }, s)

/-- One port row (`models.ExportPort`). -/
structure ExportPort where
  portName : String
  state : String
  volumeMmt : ℚ
  sharePct : ℚ
deriving DecidableEq

/-- The static `ports` table inside `get_exports_by_port`. -/
def ports : List ExportPort :=
  [{ portName := "Santos", state := "SP", volumeMmt := 345/10, sharePct := 320/10 },
   { portName := "Paranaguá", state := "PR", volumeMmt := 194/10, sharePct := 180/10 },
   { portName := "Rio Grande", state := "RS", volumeMmt := 151/10, sharePct := 140/10 },
   { portName := "São Luís", state := "MA", volumeMmt := 129/10, sharePct := 120/10 },
   { portName := "Barcarena", state := "PA", volumeMmt := 97/10, sharePct := 90/10 },
   { portName := "São Francisco do Sul", state := "SC", volumeMmt := 75/10, sharePct := 70/10 },
   { portName := "Others", state := "-", volumeMmt := 86/10, sharePct := 80/10 }]

/-- Response of `get_exports_by_port`. -/
structure ExportsByPortResponse where
  success : Bool
  commodity : String
  year : ℤ
  source : String
  last_updated : PyDateTime
  data : List ExportPort
deriving DecidableEq

/-- `BrazilAgDataService.get_exports_by_port`: no caching, fresh timestamp. -/
def get_exports_by_port (s : ServiceState) (now : PyDateTime) (commodity : String)
    (year : ℤ) : ExportsByPortResponse × ServiceState :=
  ({ success := true, commodity := commodity, year := year,
     source := "SECEX/MDIC ComexStat", last_updated := now, data := ports }, s)

/-- One soy-complex row (`models.SoyComplexRow`, values in 1000 MT). -/
structure SoyComplexRow where
  safra : String
  estoque_inicial : ℚ
  producao : ℚ
  importacao : ℚ
  suprimento : ℚ
  consumo : ℚ
  exportacao : ℚ
  estoque_final : ℚ
deriving DecidableEq

/-- The `soja_graos` literal inside `get_soy_complex_balance`. -/
def soja_graos : List SoyComplexRow :=
  [{ safra := "2024/25", estoque_inicial := 72313/10, producao := 1714805/10,
     importacao := 9686/10, suprimento := 1796804/10, consumo := 607688/10,
     exportacao := 1081811/10, estoque_final := 107306/10 },
   { safra := "2025/26", estoque_inicial := 107306/10, producao := 1761244/10,
     importacao := 5000/10, suprimento := 1873550/10, consumo := 642659/10,
     exportacao := 1117908/10, estoque_final := 112982/10 }]

/-- The `farelo` literal inside `get_soy_complex_balance`. -/
def farelo : List SoyComplexRow :=
  [{ safra := "2024/25", estoque_inicial := 33673/10, producao := 440439/10,
     importacao := 1/10, suprimento := 474113/10, consumo := 195000/10,
     exportacao := 233004/10, estoque_final := 46109/10 },
   { safra := "2025/26", estoque_inicial := 46109/10, producao := 466203/10,
     importacao := 10/10, suprimento := 512323/10, consumo := 203000/10,
     exportacao := 246960/10, estoque_final := 62363/10 }]

/-- The `oleo` literal inside `get_soy_complex_balance`. -/
def oleo : List SoyComplexRow :=
  [{ safra := "2024/25", estoque_inicial := 4652/10, producao := 114260/10,
     importacao := 1052/10, suprimento := 119965/10, consumo := 103180/10,
     exportacao := 13629/10, estoque_final := 3156/10 },
   { safra := "2025/26", estoque_inicial := 3156/10, producao := 121553/10,
     importacao := 1000/10, suprimento := 125709/10, consumo := 108110/10,
     exportacao := 14000/10, estoque_final := 3599/10 }]

/-- Response of `get_soy_complex_balance`. -/
structure SoyComplexResponse where
  success : Bool
  source : String
  note : String
  unit : String
  last_updated : PyDateTime
  soja_graos : List SoyComplexRow
  farelo : List SoyComplexRow
  oleo : List SoyComplexRow
deriving DecidableEq

/-- `BrazilAgDataService.get_soy_complex_balance`: static literals, no caching. -/
def get_soy_complex_balance (s : ServiceState) (now : PyDateTime) :
    SoyComplexResponse × ServiceState :=
  ({ success := true, source := "CONAB e Secex",
     note := "Estimativa em janeiro/2026. Estoque de passagem 31 de dezembro.",
     unit := "mil t (thousand metric tons)", last_updated := now,
     soja_graos := soja_graos, farelo := farelo, oleo := oleo }, s)

/-- One survey row of the `survey_data` literal in `get_dashboard_summary`. -/
structure SurveyRow where
  survey : ℕ
  month : String
  soybeans : ℚ
  corn : ℚ
  total : ℚ
  isCurrent : Bool := false
deriving DecidableEq

/-- The `survey_data["2025/26"]` literal in `get_dashboard_summary`. -/
def survey_data_2025_26 : List SurveyRow :=
  [{ survey := 1, month := "Oct 2025", soybeans := 1776/10, corn := 1386/10, total := 3547/10 },
   { survey := 2, month := "Nov 2025", soybeans := 1776/10, corn := 1388/10, total := 3551/10 },
   { survey := 3, month := "Dec 2025", soybeans := 1771/10, corn := 1388/10, total := 3545/10 },
   { survey := 4, month := "Jan 2026", soybeans := 1761/10, corn := 1388/10, total := 3540/10,
     isCurrent := true }]

/-- The bundled dashboard response of `get_dashboard_summary` with the nested
dicts flattened into named fields. -/
structure DashboardSummary where
  success : Bool
  last_updated : PyDateTime
  data_sources : List String
  production_soybeans : List ProductionRow
  production_corn : List ProductionRow
  balance_soybeans : List BalanceSheetRow
  balance_corn : List BalanceSheetRow
  exports_soybeans_2024 : List MonthlyExportRow
  exports_soybeans_2025 : List MonthlyExportRow
  exports_corn_2024 : List MonthlyExportRow
  exports_corn_2025 : List MonthlyExportRow
  prices_soybeans_2024 : List MonthlyPriceRow
  prices_soybeans_2025 : List MonthlyPriceRow
  prices_corn_2024 : List MonthlyPriceRow
  prices_corn_2025 : List MonthlyPriceRow
  export_destinations_soybeans : List ExportDestination
  export_ports : List ExportPort
  soy_complex_soja_graos : List SoyComplexRow
  soy_complex_farelo : List SoyComplexRow
  soy_complex_oleo : List SoyComplexRow
  survey_data : List SurveyRow
deriving DecidableEq

/-- `BrazilAgDataService.get_dashboard_summary`: invokes each resolver in the
source order (threading the cache state) and reassembles the `data` payloads. -/
def get_dashboard_summary (s : ServiceState) (now : PyDateTime) :
    DashboardSummary × ServiceState :=
  let r1 := get_balance_sheet s now "soybeans" 6
  let r2 := get_balance_sheet r1.2 now "corn" 6
  let r3 := get_monthly_exports r2.2 now "soybeans" 2024 true
  let r4 := get_monthly_exports r3.2 now "soybeans" 2025 true
  let r5 := get_monthly_exports r4.2 now "corn" 2024 true
  let r6 := get_monthly_exports r5.2 now "corn" 2025 true
  let r7 := get_production r6.2 now "soybeans" 11 none
  let r8 := get_production r7.2 now "corn" 11 none
  let r9 := get_monthly_prices r8.2 now "soybeans" 2024 none
  let r10 := get_monthly_prices r9.2 now "soybeans" 2025 none
  let r11 := get_monthly_prices r10.2 now "corn" 2024 none
  let r12 := get_monthly_prices r11.2 now "corn" 2025 none
  let r13 := get_exports_by_destination r12.2 now "soybeans" 2025 10
  let r14 := get_exports_by_port r13.2 now "soybeans" 2025
  let r15 := get_soy_complex_balance r14.2 now
  ({ success := true, last_updated := now,
     data_sources := ["CONAB", "SECEX/MDIC ComexStat"],
     production_soybeans := r7.1.data, production_corn := r8.1.data,
     balance_soybeans := r1.1.data, balance_corn := r2.1.data,
     exports_soybeans_2024 := r3.1.data, exports_soybeans_2025 := r4.1.data,
     exports_corn_2024 := r5.1.data, exports_corn_2025 := r6.1.data,
     prices_soybeans_2024 := r9.1.data, prices_soybeans_2025 := r10.1.data,
     prices_corn_2024 := r11.1.data, prices_corn_2025 := r12.1.data,
     export_destinations_soybeans := r13.1.data, export_ports := r14.1.data,
     soy_complex_soja_graos := r15.1.soja_graos, soy_complex_farelo := r15.1.farelo,
     soy_complex_oleo := r15.1.oleo, survey_data := survey_data_2025_26 }, r15.2)

/-- `BrazilAgDataService.refresh_all`: `self._cache.clear()` followed by
`await self.get_dashboard_summary()` (the disk save does not change the
in-memory state). -/
def refresh_all (s : ServiceState) (now : PyDateTime) : ServiceState :=
  (get_dashboard_summary { s with cache := [] } now).2

/-- The cache keys that `get_dashboard_summary` populates: the two balance
sheets and the four monthly-export series (production, prices, destinations,
ports and the soy complex are not cached). -/
def dashboardCacheKeys : List String :=
  ["balance_soybeans", "balance_corn", "exports_soybeans_2024",
   "exports_soybeans_2025", "exports_corn_2024", "exports_corn_2025"]

/-- Zero-padded fixed-width decimal digits of `n` (the `%04d`-style fields of
`datetime.isoformat`), most significant first. -/
def padChars : ℕ → ℕ → List Char
  | 0, _ => []
  | w + 1, n => padChars w (n / 10) ++ [Nat.digitChar (n % 10)]

/-- The character sequence of `datetime.isoformat()`:
`YYYY-MM-DDTHH:MM:SS`, with `.ffffff` appended exactly when the microsecond
field is nonzero. -/
def isoformatChars (t : PyDateTime) : List Char :=
  padChars 4 t.year ++ '-' :: (padChars 2 t.month ++ '-' :: (padChars 2 t.day ++
   'T' :: (padChars 2 t.hour ++ ':' :: (padChars 2 t.minute ++ ':' :: (padChars 2 t.second ++
   (if t.microsecond = 0 then [] else '.' :: padChars 6 t.microsecond))))))

/-- `datetime.isoformat()` as a string. -/
def PyDateTime.isoformat (t : PyDateTime) : String := ⟨isoformatChars t⟩

/-- Read a fixed-width decimal field: the parsed value and the rest. -/
def parseFixed (w : ℕ) (cs : List Char) : ℕ × List Char :=
  ((cs.take w).foldl (fun a c => 10 * a + (c.toNat - 48)) 0, cs.drop w)

/-- Demand one literal character. -/
def expectChar (c : Char) : List Char → Option (List Char)
  | [] => none
  | c' :: rest => if c' = c then some rest else none

/-- `datetime.fromisoformat` on the character sequence, restricted to the
shapes `isoformat` emits (with and without the fractional-seconds part);
anything else is a parse error, which Python raises and
`_load_cache_from_disk` catches. -/
def fromisoformatChars (cs : List Char) : Option PyDateTime :=
  match parseFixed 4 cs with
  | (y, cs1) =>
  match expectChar '-' cs1 with
  | none => none
  | some cs2 =>
  match parseFixed 2 cs2 with
  | (mo, cs3) =>
  match expectChar '-' cs3 with
  | none => none
  | some cs4 =>
  match parseFixed 2 cs4 with
  | (d, cs5) =>
  match expectChar 'T' cs5 with
  | none => none
  | some cs6 =>
  match parseFixed 2 cs6 with
  | (h, cs7) =>
  match expectChar ':' cs7 with
  | none => none
  | some cs8 =>
  match parseFixed 2 cs8 with
  | (mi, cs9) =>
  match expectChar ':' cs9 with
  | none => none
  | some cs10 =>
  match parseFixed 2 cs10 with
  | (sec, cs11) =>
  match cs11 with
  | [] => some ⟨y, mo, d, h, mi, sec, 0⟩
  | '.' :: cs12 =>
      match parseFixed 6 cs12 with
      | (us, cs13) => if cs13 = [] then some ⟨y, mo, d, h, mi, sec, us⟩ else none
  | _ => none

/-- `datetime.fromisoformat` on a string. -/
def PyDateTime.fromisoformat (s : String) : Option PyDateTime :=
  fromisoformatChars s.data

/-- The field ranges `datetime.datetime` itself enforces. -/
def PyDateTime.Valid (t : PyDateTime) : Prop :=
  1 ≤ t.year ∧ t.year ≤ 9999 ∧ 1 ≤ t.month ∧ t.month ≤ 12 ∧ 1 ≤ t.day ∧ t.day ≤ 31 ∧
  t.hour ≤ 23 ∧ t.minute ≤ 59 ∧ t.second ≤ 59 ∧ t.microsecond ≤ 999999

instance (t : PyDateTime) : Decidable t.Valid := by
  unfold PyDateTime.Valid; infer_instance

/-- The single JSON document `_save_cache_to_disk` writes: the `cache` dict
verbatim and `last_updated` with timestamps as ISO strings.  (The JSON text
encoding of the document is the standard library's; the repository code's own
transformation is the `isoformat` conversion modelled here.) -/
structure SavedCacheFile where
  cache : Dict CacheVal
  last_updated : Dict String
deriving DecidableEq

/-- `BrazilAgDataService._save_cache_to_disk` (the written document). -/
def save_cache_to_disk (s : ServiceState) : SavedCacheFile :=
  { cache := s.cache,
    last_updated := s.last_updated.map (fun kv => (kv.1, kv.2.isoformat)) }

/-- The loop of `_load_cache_from_disk`: convert every ISO string back with
`fromisoformat`; a malformed entry raises, which the surrounding `except`
turns into an aborted load (modelled as `none`). -/
def parse_last_updated : Dict String → Option (List (String × PyDateTime))
  | [] => some []
  | (k, v) :: rest =>
      match PyDateTime.fromisoformat v with
      | none => none
      | some t =>
          match parse_last_updated rest with
          | none => none
          | some r => some ((k, t) :: r)

/-- `BrazilAgDataService._load_cache_from_disk` on a readable file:
`self._cache = data.get("cache", {})` replaces the cache wholesale, then each
`last_updated` entry is written into the existing map. -/
def load_cache_from_disk (s : ServiceState) (file : SavedCacheFile) :
    Option ServiceState :=
  match parse_last_updated file.last_updated with
  | none => none
  | some entries =>
      some { s with cache := file.cache,
                    last_updated := entries.foldl (fun m kt => dset m kt.1 kt.2) s.last_updated }

/-- Return value of `BrazilAgDataService.get_status`. -/
structure StatusReport where
  initialized : Bool
  cache_keys : List String
  last_updated : Dict String
deriving DecidableEq

/-- `BrazilAgDataService.get_status`. -/
def get_status (s : ServiceState) : StatusReport :=
  { initialized := s.initialized, cache_keys := dkeys s.cache,
    last_updated := s.last_updated.map (fun kv => (kv.1, kv.2.isoformat)) }

/-- A concrete instant used to instantiate universally quantified theorems. -/
def sampleNow : PyDateTime := ⟨2026, 1, 15, 10, 30, 0, 0⟩

/-- A distinct later instant (same day, five seconds later). -/
def sampleNow2 : PyDateTime := ⟨2026, 1, 15, 10, 30, 5, 0⟩

/-- An instant inside September 2025, for partial-month instantiations. -/
def sampleNowSep : PyDateTime := ⟨2025, 9, 12, 0, 0, 0, 0⟩

/-- A concrete service state with one recorded timestamp and empty cache. -/
def sampleState : ServiceState :=
  { cache := [], last_updated := [("production_soybeans", sampleNow)], initialized := true }

/-- The September 2025 corn export row as produced on 12 Sep 2025:
the canned 9.0 MMT scaled by 12/30. -/
def sampleExportRow : MonthlyExportRow :=
  { year := 2025, month := 9, monthName := "Sep", volumeMt := 3600000, volumeMmt := 18/5,
    valueUsd := 1512000000, toChinaMt := none, toChinaPct := none, isPartial := true }

/-- A concrete state to save and reload, with a microsecond-bearing timestamp. -/
def sampleSavedState : ServiceState :=
  { cache := [("balance_soybeans", CacheVal.bal [])],
    last_updated := [("balance_soybeans", ⟨2026, 1, 15, 8, 30, 5, 123456⟩)],
    initialized := true }

/-- January of the Mato Grosso soybean price series. -/
def samplePriceRowJan : MonthlyPriceRow :=
  price_row 2025 "MT" [130, 126, 119, 115, 113, 111, 108, 113, 119, 125, 131, 133] 0

/-- February of the Mato Grosso soybean price series. -/
def samplePriceRowFeb : MonthlyPriceRow :=
  price_row 2025 "MT" [130, 126, 119, 115, 113, 111, 108, 113, 119, 125, 131, 133] 1

/-! ### Association-list (Python dict) lemmas -/

theorem dlookup_dset {α : Type} (m : Dict α) (k k' : String) (v : α) :
    dlookup (dset m k v) k' = if k = k' then some v else dlookup m k' := by
  induction m with
  | nil => simp [dset, dlookup]
  | cons hd tl ih =>
      obtain ⟨k1, v1⟩ := hd
      by_cases h1 : k1 = k
      · subst h1
        simp only [dset, if_pos rfl, dlookup]
        by_cases h2 : k1 = k' <;> simp [h2]
      · simp only [dset, if_neg h1, dlookup, ih]
        by_cases h2 : k = k'
        · by_cases h3 : k1 = k'
          · exact absurd (h3.trans h2.symm) h1
          · simp [h2, h3]
        · simp [h2]

theorem mem_dkeys_dset_of_mem {α : Type} {m : Dict α} {k' k : String} {v : α}
    (h : k' ∈ dkeys m) : k' ∈ dkeys (dset m k v) := by
  induction m with
  | nil => simp [dkeys] at h
  | cons hd tl ih =>
      obtain ⟨k1, v1⟩ := hd
      by_cases h1 : k1 = k
      · subst h1
        simpa [dset, dkeys] using h
      · simp only [dkeys, List.map_cons, List.mem_cons] at h
        rcases h with h | h
        · simp [dset, if_neg h1, dkeys, h]
        · simp [dset, if_neg h1, dkeys]
          exact Or.inr (by simpa [dkeys] using ih h)

theorem dlookup_eq_none_iff {α : Type} (m : Dict α) (k : String) :
    dlookup m k = none ↔ k ∉ dkeys m := by
  induction m with
  | nil => simp [dlookup, dkeys]
  | cons hd tl ih =>
      obtain ⟨k1, v1⟩ := hd
      by_cases h1 : k1 = k
      · subst h1
        simp [dlookup, dkeys]
      · have h1' : k ≠ k1 := fun h => h1 h.symm
        simp [dlookup, h1, dkeys, h1', ih]

theorem dset_eq_append_of_not_mem {α : Type} {m : Dict α} {k : String} (v : α)
    (h : k ∉ dkeys m) : dset m k v = m ++ [(k, v)] := by
  induction m with
  | nil => simp [dset]
  | cons hd tl ih =>
      obtain ⟨k1, v1⟩ := hd
      simp only [dkeys, List.map_cons, List.mem_cons, not_or] at h
      have h1' : ¬ k1 = k := fun hh => h.1 hh.symm
      simp [dset, h1', ih h.2]

/-! ### Cache-key effect of a full refresh -/

theorem refresh_cache_keys (s : ServiceState) (now : PyDateTime) :
    dkeys (refresh_all s now).cache = dashboardCacheKeys := rfl

theorem refresh_lu (s : ServiceState) (now : PyDateTime) :
    (refresh_all s now).last_updated =
      dset (dset (dset (dset (dset (dset s.last_updated "balance_soybeans" now)
        "balance_corn" now) "exports_soybeans_2024" now) "exports_soybeans_2025" now)
        "exports_corn_2024" now) "exports_corn_2025" now := rfl

/-! ### Claim theorems -/

/-- C9: `get_production` accepts a `state` argument but never applies it: the
whole response (in particular its `data` rows) is identical for every pair of
values of the optional parameter. -/
theorem production_state_param_no_influence (s : ServiceState) (now : PyDateTime)
    (commodity : String) (years : ℕ) (st1 st2 : Option String) :
    get_production s now commodity years st1 = get_production s now commodity years st2 := rfl

/-- C3: after `refresh_all` the cache holds exactly the keys populated by
`get_dashboard_summary` (the two balance sheets and four monthly-export
series); every previously present key was cleared first, and any key outside
that subset is absent until separately fetched. -/
theorem refreshAll_cache_exactly_dashboard (s : ServiceState) (now : PyDateTime)
    (k : String) (hk : k ∉ dashboardCacheKeys) :
    dkeys (refresh_all s now).cache = dashboardCacheKeys ∧
    dlookup (refresh_all s now).cache k = none := by
  refine ⟨refresh_cache_keys s now, ?_⟩
  rw [dlookup_eq_none_iff, refresh_cache_keys]
  exact hk

theorem refreshAll_cache_exactly_dashboard_witness :
    ("production_soybeans" ∉ dashboardCacheKeys) ∧
    (dkeys (refresh_all sampleState sampleNow).cache = dashboardCacheKeys ∧
     dlookup (refresh_all sampleState sampleNow).cache "production_soybeans" = none) :=
  ⟨by decide,
   refreshAll_cache_exactly_dashboard sampleState sampleNow "production_soybeans" (by decide)⟩

/-- C10: `refresh_all` clears only the cache map, never `last_updated`: every
key with a recorded timestamp still has one afterwards; a key outside the
dashboard subset keeps its old timestamp while being absent from the cache, so
`get_status` lists it under `last_updated` but not under `cache_keys`. -/
theorem refreshAll_preserves_last_updated_entries (s : ServiceState) (now : PyDateTime)
    (k : String) (hk : k ∈ dkeys s.last_updated) :
    k ∈ dkeys (refresh_all s now).last_updated ∧
    (k ∉ dashboardCacheKeys →
      dlookup (refresh_all s now).last_updated k = dlookup s.last_updated k ∧
      k ∉ (get_status (refresh_all s now)).cache_keys ∧
      k ∈ (get_status (refresh_all s now)).last_updated.map Prod.fst) := by
  constructor
  · rw [refresh_lu]
    exact mem_dkeys_dset_of_mem (mem_dkeys_dset_of_mem (mem_dkeys_dset_of_mem
      (mem_dkeys_dset_of_mem (mem_dkeys_dset_of_mem (mem_dkeys_dset_of_mem hk)))))
  · intro hnd
    simp only [dashboardCacheKeys, List.mem_cons, List.not_mem_nil, or_false,
      not_or] at hnd
    obtain ⟨h1, h2, h3, h4, h5, h6⟩ := hnd
    refine ⟨?_, ?_, ?_⟩
    · rw [refresh_lu]
      simp only [dlookup_dset]
      rw [if_neg (fun h => h6 h.symm), if_neg (fun h => h5 h.symm),
          if_neg (fun h => h4 h.symm), if_neg (fun h => h3 h.symm),
          if_neg (fun h => h2 h.symm), if_neg (fun h => h1 h.symm)]
    · show k ∉ dkeys (refresh_all s now).cache
      rw [refresh_cache_keys]
      simp [dashboardCacheKeys, h1, h2, h3, h4, h5, h6]
    · have hmapfst : (get_status (refresh_all s now)).last_updated.map Prod.fst =
          dkeys (refresh_all s now).last_updated := by
        simp [get_status, dkeys, List.map_map, Function.comp]
      rw [hmapfst, refresh_lu]
      exact mem_dkeys_dset_of_mem (mem_dkeys_dset_of_mem (mem_dkeys_dset_of_mem
        (mem_dkeys_dset_of_mem (mem_dkeys_dset_of_mem (mem_dkeys_dset_of_mem hk)))))

theorem refreshAll_preserves_last_updated_entries_witness :
    ("production_soybeans" ∈ dkeys sampleState.last_updated) ∧
    ("production_soybeans" ∈ dkeys (refresh_all sampleState sampleNow2).last_updated ∧
     ("production_soybeans" ∉ dashboardCacheKeys →
       dlookup (refresh_all sampleState sampleNow2).last_updated "production_soybeans" =
         dlookup sampleState.last_updated "production_soybeans" ∧
       "production_soybeans" ∉ (get_status (refresh_all sampleState sampleNow2)).cache_keys ∧
       "production_soybeans" ∈
         (get_status (refresh_all sampleState sampleNow2)).last_updated.map Prod.fst)) :=
  ⟨by decide,
   refreshAll_preserves_last_updated_entries sampleState sampleNow2 "production_soybeans"
     (by decide)⟩

/-- C4: for a supported commodity and `years ≥ 1`, `get_balance_sheet` returns
at most `years` rows forming a suffix (the most recent rows, stored ascending
order preserved) of the stored series; for soybeans with `years = 2` the rows
are exactly the "2024/25" and "2025/26" rows, only the latter a projection. -/
theorem balance_sheet_last_years (s : ServiceState) (now : PyDateTime) (commodity : String)
    (years : ℕ) (hc : commodity ∈ supportedCommodities) (hy : 1 ≤ years)
    (hmiss : dlookup s.cache ("balance_" ++ commodity) = none) :
    ((get_balance_sheet s now commodity years).1.data).length ≤ years ∧
    (get_balance_sheet s now commodity years).1.data <:+ get_balance_sheet_fallback commodity ∧
    (get_balance_sheet initState now "soybeans" 2).1.data =
      [{ year := "2024/25", openingStock := 7231/1000, production := 171481/1000,
         imports := 969/1000, consumption := 60769/1000, exports := 108181/1000,
         endingStock := 10731/1000 },
       { year := "2025/26", openingStock := 10731/1000, production := 176124/1000,
         imports := 500/1000, consumption := 64266/1000, exports := 111791/1000,
         endingStock := 11298/1000, isProjection := true }] := by
  have hdata : (get_balance_sheet s now commodity years).1.data =
      pyTakeLast (get_balance_sheet_fallback commodity) years := by
    simp [get_balance_sheet, hmiss]
  have hy0 : ¬ years = 0 := by omega
  refine ⟨?_, ?_, ?_⟩
  · rw [hdata, pyTakeLast, if_neg hy0, List.length_drop]
    omega
  · rw [hdata, pyTakeLast, if_neg hy0]
    exact List.drop_suffix _ _
  · rfl

theorem balance_sheet_last_years_witness :
    ("corn" ∈ supportedCommodities) ∧ (1 ≤ 3) ∧
    (dlookup initState.cache ("balance_" ++ "corn") = none) ∧
    (((get_balance_sheet initState sampleNow "corn" 3).1.data).length ≤ 3 ∧
     (get_balance_sheet initState sampleNow "corn" 3).1.data <:+
       get_balance_sheet_fallback "corn" ∧
     (get_balance_sheet initState sampleNow "soybeans" 2).1.data =
       [{ year := "2024/25", openingStock := 7231/1000, production := 171481/1000,
          imports := 969/1000, consumption := 60769/1000, exports := 108181/1000,
          endingStock := 10731/1000 },
        { year := "2025/26", openingStock := 10731/1000, production := 176124/1000,
          imports := 500/1000, consumption := 64266/1000, exports := 111791/1000,
          endingStock := 11298/1000, isProjection := true }]) :=
  ⟨by decide, by decide, by decide,
   balance_sheet_last_years initState sampleNow "corn" 3 (by decide) (by decide) (by decide)⟩

/-! ### Repeat-fetch behaviour -/

theorem pyTakeLast_of_le {α : Type} (l : List α) (n : ℕ) (h : l.length ≤ n) :
    pyTakeLast l n = l := by
  unfold pyTakeLast
  by_cases h0 : n = 0
  · simp [h0]
  · rw [if_neg h0, Nat.sub_eq_zero_of_le h, List.drop_zero]

theorem trunc_eq_pyTakeLast {α : Type} (l : List α) (n : ℕ) :
    (if l.length > n then pyTakeLast l n else l) = pyTakeLast l n := by
  by_cases h : l.length > n
  · rw [if_pos h]
  · rw [if_neg h, pyTakeLast_of_le l n (by omega)]

/-- C1 (amended): repeating any fetch with identical parameters and no
intervening refresh returns identical `data` for all six operations; the
`last_updated` reported by the second call equals the first call's for the two
caching operations (`get_balance_sheet`, `get_monthly_exports`) — assuming any
pre-existing cache entry for the key has a recorded timestamp, as holds after
a populate — whereas the four non-caching operations (`get_production`,
`get_monthly_prices`, `get_exports_by_destination`, `get_exports_by_port`)
restamp `datetime.now()` on every call, so only their `data` is unchanged. -/
theorem fetch_repeat_idempotent (s : ServiceState) (t1 t2 : PyDateTime)
    (commodity : String) (years : ℕ) (year : ℤ) (ic : Bool)
    (loc st : Option String) (top_n : ℕ)
    (hb : dlookup s.cache ("balance_" ++ commodity) = none ∨
          (dlookup s.last_updated ("balance_" ++ commodity)).isSome)
    (he : dlookup s.cache ("exports_" ++ commodity ++ "_" ++ toString year) = none ∨
          (dlookup s.last_updated ("exports_" ++ commodity ++ "_" ++ toString year)).isSome) :
    ((get_balance_sheet (get_balance_sheet s t1 commodity years).2 t2 commodity years).1.data =
       (get_balance_sheet s t1 commodity years).1.data ∧
     (get_balance_sheet (get_balance_sheet s t1 commodity years).2 t2 commodity
         years).1.last_updated =
       (get_balance_sheet s t1 commodity years).1.last_updated) ∧
    ((get_monthly_exports (get_monthly_exports s t1 commodity year ic).2 t2 commodity year
         ic).1.data =
       (get_monthly_exports s t1 commodity year ic).1.data ∧
     (get_monthly_exports (get_monthly_exports s t1 commodity year ic).2 t2 commodity year
         ic).1.last_updated =
       (get_monthly_exports s t1 commodity year ic).1.last_updated) ∧
    (get_production (get_production s t1 commodity years st).2 t2 commodity years st).1.data =
      (get_production s t1 commodity years st).1.data ∧
    (get_monthly_prices (get_monthly_prices s t1 commodity year loc).2 t2 commodity year
        loc).1.data =
      (get_monthly_prices s t1 commodity year loc).1.data ∧
    (get_exports_by_destination (get_exports_by_destination s t1 commodity year top_n).2 t2
        commodity year top_n).1.data =
      (get_exports_by_destination s t1 commodity year top_n).1.data ∧
    (get_exports_by_port (get_exports_by_port s t1 commodity year).2 t2 commodity
        year).1.data =
      (get_exports_by_port s t1 commodity year).1.data := by
  refine ⟨?_, ?_, rfl, rfl, rfl, rfl⟩
  · rcases hcase : dlookup s.cache ("balance_" ++ commodity) with _ | val
    · have hlook : dlookup (dset s.cache ("balance_" ++ commodity)
          (CacheVal.bal (get_balance_sheet_fallback commodity))) ("balance_" ++ commodity) =
          some (CacheVal.bal (get_balance_sheet_fallback commodity)) := by
        rw [dlookup_dset, if_pos rfl]
      constructor
      · simp [get_balance_sheet, hcase, hlook, trunc_eq_pyTakeLast]
      · simp [get_balance_sheet, hcase, hlook, dlookup_dset]
    · cases val with
      | bal cached =>
          rcases hb with hb | hb
          · rw [hcase] at hb; cases hb
          · obtain ⟨u, hu⟩ := Option.isSome_iff_exists.mp hb
            constructor
            · simp [get_balance_sheet, hcase]
            · simp [get_balance_sheet, hcase, hu]
      | exps rows =>
          have hlook : dlookup (dset s.cache ("balance_" ++ commodity)
              (CacheVal.bal (get_balance_sheet_fallback commodity))) ("balance_" ++ commodity) =
              some (CacheVal.bal (get_balance_sheet_fallback commodity)) := by
            rw [dlookup_dset, if_pos rfl]
          constructor
          · simp [get_balance_sheet, hcase, hlook, trunc_eq_pyTakeLast]
          · simp [get_balance_sheet, hcase, hlook, dlookup_dset]
  · rcases hcase : dlookup s.cache ("exports_" ++ commodity ++ "_" ++ toString year)
      with _ | val
    · have hlook : dlookup (dset s.cache ("exports_" ++ commodity ++ "_" ++ toString year)
          (CacheVal.exps (get_monthly_exports_fallback commodity year t1)))
          ("exports_" ++ commodity ++ "_" ++ toString year) =
          some (CacheVal.exps (get_monthly_exports_fallback commodity year t1)) := by
        rw [dlookup_dset, if_pos rfl]
      constructor
      · simp [get_monthly_exports, hcase, hlook, monthly_exports_response]
      · simp [get_monthly_exports, hcase, hlook, dlookup_dset, monthly_exports_response]
    · cases val with
      | bal rows =>
          have hlook : dlookup (dset s.cache
              ("exports_" ++ commodity ++ "_" ++ toString year)
              (CacheVal.exps (get_monthly_exports_fallback commodity year t1)))
              ("exports_" ++ commodity ++ "_" ++ toString year) =
              some (CacheVal.exps (get_monthly_exports_fallback commodity year t1)) := by
            rw [dlookup_dset, if_pos rfl]
          constructor
          · simp [get_monthly_exports, hcase, hlook, monthly_exports_response]
          · simp [get_monthly_exports, hcase, hlook, dlookup_dset, monthly_exports_response]
      | exps rows =>
          rcases he with he | he
          · rw [hcase] at he; cases he
          · obtain ⟨u, hu⟩ := Option.isSome_iff_exists.mp he
            constructor
            · simp [get_monthly_exports, hcase, monthly_exports_response]
            · simp [get_monthly_exports, hcase, hu, monthly_exports_response]

theorem fetch_repeat_idempotent_witness :
    (dlookup initState.cache ("balance_" ++ "soybeans") = none ∨
       (dlookup initState.last_updated ("balance_" ++ "soybeans")).isSome) ∧
    (dlookup initState.cache ("exports_" ++ "soybeans" ++ "_" ++ toString (2025 : ℤ)) = none ∨
       (dlookup initState.last_updated
          ("exports_" ++ "soybeans" ++ "_" ++ toString (2025 : ℤ))).isSome) ∧
    (((get_balance_sheet (get_balance_sheet initState sampleNow "soybeans" 6).2 sampleNow2
          "soybeans" 6).1.data =
        (get_balance_sheet initState sampleNow "soybeans" 6).1.data ∧
      (get_balance_sheet (get_balance_sheet initState sampleNow "soybeans" 6).2 sampleNow2
          "soybeans" 6).1.last_updated =
        (get_balance_sheet initState sampleNow "soybeans" 6).1.last_updated) ∧
     ((get_monthly_exports (get_monthly_exports initState sampleNow "soybeans" 2025 true).2
          sampleNow2 "soybeans" 2025 true).1.data =
        (get_monthly_exports initState sampleNow "soybeans" 2025 true).1.data ∧
      (get_monthly_exports (get_monthly_exports initState sampleNow "soybeans" 2025 true).2
          sampleNow2 "soybeans" 2025 true).1.last_updated =
        (get_monthly_exports initState sampleNow "soybeans" 2025 true).1.last_updated) ∧
     (get_production (get_production initState sampleNow "soybeans" 6 none).2 sampleNow2
         "soybeans" 6 none).1.data =
       (get_production initState sampleNow "soybeans" 6 none).1.data ∧
     (get_monthly_prices (get_monthly_prices initState sampleNow "soybeans" 2025 none).2
         sampleNow2 "soybeans" 2025 none).1.data =
       (get_monthly_prices initState sampleNow "soybeans" 2025 none).1.data ∧
     (get_exports_by_destination
         (get_exports_by_destination initState sampleNow "soybeans" 2025 10).2 sampleNow2
         "soybeans" 2025 10).1.data =
       (get_exports_by_destination initState sampleNow "soybeans" 2025 10).1.data ∧
     (get_exports_by_port (get_exports_by_port initState sampleNow "soybeans" 2025).2
         sampleNow2 "soybeans" 2025).1.data =
       (get_exports_by_port initState sampleNow "soybeans" 2025).1.data) :=
  ⟨by decide, by decide,
   fetch_repeat_idempotent initState sampleNow sampleNow2 "soybeans" 6 2025 true none none 10
     (by decide) (by decide)⟩

/-- C1 (counterexample to the claim as stated): `get_production` restamps
`last_updated` with the current wall clock on every call, so two calls with
identical parameters and no intervening refresh report different
`last_updated` values once the clock has advanced. -/
theorem fetch_repeat_counterexample :
    (get_production (get_production initState sampleNow "soybeans" 10 none).2 sampleNow2
        "soybeans" 10 none).1.last_updated ≠
      (get_production initState sampleNow "soybeans" 10 none).1.last_updated := by decide

/-! ### Unrecognized-commodity behaviour -/

/-- C2 (counterexample to the claim as stated): `_get_monthly_exports_fallback`
substitutes the default `[5.0] * 12` pattern for an unknown commodity, so
`get_monthly_exports` returns twelve synthesized rows, not an empty `data`. -/
theorem unknown_commodity_counterexample :
    (get_monthly_exports initState sampleNow "quinoa" 2025 true).1.data ≠ [] := by decide

/-- C2 (amended): an unrecognized commodity never raises; `get_balance_sheet`
and `get_production` degrade to an empty `data`, and so does
`get_monthly_prices` when no location is requested, but `get_monthly_exports`
returns the synthesized default 12-month pattern and
`get_exports_by_destination` / `get_exports_by_port` serve their full static
tables unchanged. -/
theorem unknown_commodity_degrades (s : ServiceState) (now : PyDateTime)
    (commodity : String) (years : ℕ) (year : ℤ) (ic : Bool) (st : Option String)
    (top_n : ℕ) (hc : commodity ∉ supportedCommodities)
    (hmb : dlookup s.cache ("balance_" ++ commodity) = none)
    (hme : dlookup s.cache ("exports_" ++ commodity ++ "_" ++ toString year) = none) :
    (get_balance_sheet s now commodity years).1.data = [] ∧
    (get_production s now commodity years st).1.data = [] ∧
    (get_monthly_prices s now commodity year none).1.data = [] ∧
    ((get_monthly_exports s now commodity year ic).1.data).length = 12 ∧
    (get_exports_by_destination s now commodity year top_n).1.data =
      destinations.take top_n ∧
    (get_exports_by_port s now commodity year).1.data = ports := by
  simp only [supportedCommodities, List.mem_cons, List.not_mem_nil, or_false,
    not_or] at hc
  obtain ⟨h1, h2, h3, h4, h5⟩ := hc
  have h1' : ("soybeans" : String) ≠ commodity := fun h => h1 h.symm
  have h2' : ("corn" : String) ≠ commodity := fun h => h2 h.symm
  have h3' : ("soy_meal" : String) ≠ commodity := fun h => h3 h.symm
  have h4' : ("soy_oil" : String) ≠ commodity := fun h => h4 h.symm
  have h5' : ("wheat" : String) ≠ commodity := fun h => h5 h.symm
  refine ⟨?_, ?_, ?_, ?_, rfl, rfl⟩
  · simp [get_balance_sheet, hmb, get_balance_sheet_fallback,
      balance_sheet_fallback_table, dlookup, h1', h2', h3', h4', h5', pyTakeLast]
  · simp [get_production, get_production_fallback, production_fallback_table, dlookup,
      h1', h2', pyTakeLast]
  · simp [get_monthly_prices, get_prices_fallback, prices_table, h1, h2, h5, dkeys]
  · simp [get_monthly_exports, hme, monthly_exports_response,
      get_monthly_exports_fallback, export_patterns, h1, h2, h3, h4]

theorem unknown_commodity_degrades_witness :
    ("quinoa" ∉ supportedCommodities) ∧
    (dlookup initState.cache ("balance_" ++ "quinoa") = none) ∧
    (dlookup initState.cache ("exports_" ++ "quinoa" ++ "_" ++ toString (2025 : ℤ)) = none) ∧
    ((get_balance_sheet initState sampleNow "quinoa" 6).1.data = [] ∧
     (get_production initState sampleNow "quinoa" 6 none).1.data = [] ∧
     (get_monthly_prices initState sampleNow "quinoa" 2025 none).1.data = [] ∧
     ((get_monthly_exports initState sampleNow "quinoa" 2025 true).1.data).length = 12 ∧
     (get_exports_by_destination initState sampleNow "quinoa" 2025 10).1.data =
       destinations.take 10 ∧
     (get_exports_by_port initState sampleNow "quinoa" 2025).1.data = ports) :=
  ⟨by decide, by decide, by decide,
   unknown_commodity_degrades initState sampleNow "quinoa" 6 2025 true none 10
     (by decide) (by decide) (by decide)⟩

/-! ### Partial-month flag of the monthly-exports fallback -/

/-- C6: in `_get_monthly_exports_fallback`, a row is scaled by
`day_of_month / 30` (fixed divisor 30) and flagged partial exactly when the
requested year is the current year and the row's month is the current month;
for any other requested year no row is flagged. -/
theorem exports_partial_month_scaling (commodity : String) (year : ℤ) (now : PyDateTime)
    (r : MonthlyExportRow) (hr : r ∈ get_monthly_exports_fallback commodity year now) :
    (year ≠ (now.year : ℤ) → r.isPartial = false) ∧
    (year = (now.year : ℤ) → r.month = now.month →
      r.isPartial = true ∧
      r.volumeMt = ((export_patterns commodity year).getD (List.replicate 12 5)).getD
          (r.month - 1) 0 * ((now.day : ℚ) / 30) * 1000000 ∧
      r.volumeMmt = pyRound 2 (((export_patterns commodity year).getD
          (List.replicate 12 5)).getD (r.month - 1) 0 * ((now.day : ℚ) / 30))) := by
  unfold get_monthly_exports_fallback at hr
  rw [List.mem_map] at hr
  obtain ⟨i, hi, hr⟩ := hr
  rw [List.mem_range] at hi
  subst hr
  constructor
  · intro hne
    simp [hne]
  · intro hy hm
    simp only at hm
    subst hy
    have hidx : i = now.month - 1 := by omega
    subst hidx
    simp [hm]

theorem exports_partial_month_scaling_witness :
    (sampleExportRow ∈ get_monthly_exports_fallback "corn" 2025 sampleNowSep) ∧
    (((2025 : ℤ) ≠ (sampleNowSep.year : ℤ) → sampleExportRow.isPartial = false) ∧
     ((2025 : ℤ) = (sampleNowSep.year : ℤ) → sampleExportRow.month = sampleNowSep.month →
       sampleExportRow.isPartial = true ∧
       sampleExportRow.volumeMt =
         ((export_patterns "corn" 2025).getD (List.replicate 12 5)).getD
           (sampleExportRow.month - 1) 0 * ((sampleNowSep.day : ℚ) / 30) * 1000000 ∧
       sampleExportRow.volumeMmt =
         pyRound 2 (((export_patterns "corn" 2025).getD (List.replicate 12 5)).getD
           (sampleExportRow.month - 1) 0 * ((sampleNowSep.day : ℚ) / 30)))) :=
  ⟨by decide,
   exports_partial_month_scaling "corn" 2025 sampleNowSep sampleExportRow (by decide)⟩

/-! ### Year-to-date aggregation -/

theorem export_volumes_pos (c : String) (y : ℤ) :
    ∀ v ∈ (export_patterns c y).getD (List.replicate 12 5), 0 < v := by
  unfold export_patterns
  split_ifs <;> decide

theorem exports_fallback_length (c : String) (y : ℤ) (now : PyDateTime) :
    (get_monthly_exports_fallback c y now).length = 12 := by
  unfold get_monthly_exports_fallback
  rw [List.length_map, List.length_range]
  unfold export_patterns
  split_ifs <;> rfl

theorem exports_fallback_toChinaMt_pos (c : String) (y : ℤ) (now : PyDateTime)
    (hc : c = "soybeans" ∨ c = "soy_meal") (hday : 1 ≤ now.day) :
    ∀ r ∈ get_monthly_exports_fallback c y now, 0 < r.toChinaMt.getD 0 := by
  intro r hr
  unfold get_monthly_exports_fallback at hr
  rw [List.mem_map] at hr
  obtain ⟨i, hi, hr⟩ := hr
  rw [List.mem_range] at hi
  subst hr
  have hvol0 : 0 < ((export_patterns c y).getD (List.replicate 12 5)).getD i 0 := by
    have hmem : ((export_patterns c y).getD (List.replicate 12 5)).getD i 0 ∈
        (export_patterns c y).getD (List.replicate 12 5) := by
      rw [List.getD_eq_getElem _ _ hi]
      exact List.getElem_mem hi
    exact export_volumes_pos c y _ hmem
  have hday' : (0 : ℚ) < (now.day : ℚ) / 30 := by
    apply div_pos _ (by norm_num)
    exact_mod_cast Nat.lt_of_lt_of_le Nat.zero_lt_one hday
  simp only [if_pos hc, Option.getD_some]
  split_ifs <;>
    first
      | exact mul_pos (mul_pos (mul_pos hvol0 hday') (by norm_num)) (by norm_num)
      | exact mul_pos (mul_pos hvol0 (by norm_num)) (by norm_num)

theorem exports_fallback_toChinaMt_none (c : String) (y : ℤ) (now : PyDateTime)
    (hc : ¬(c = "soybeans" ∨ c = "soy_meal")) :
    ∀ r ∈ get_monthly_exports_fallback c y now, r.toChinaMt = none := by
  intro r hr
  unfold get_monthly_exports_fallback at hr
  rw [List.mem_map] at hr
  obtain ⟨i, _, hr⟩ := hr
  subst hr
  simp [hc]

/-- C5: `ytdTotalMmt` is the two-decimal rounding of the sum of the returned
rows' `volumeMmt`; `ytdToChinaMmt` is the two-decimal rounding of the summed
`toChinaMt` divided by 1,000,000 when `include_china` holds and the commodity
is soybeans or soy meal, and is `None` otherwise. -/
theorem exports_ytd_aggregation (s : ServiceState) (now : PyDateTime) (commodity : String)
    (year : ℤ) (ic : Bool)
    (hmiss : dlookup s.cache ("exports_" ++ commodity ++ "_" ++ toString year) = none)
    (hday : 1 ≤ now.day) :
    (get_monthly_exports s now commodity year ic).1.ytdTotalMmt =
      pyRound 2 ((((get_monthly_exports s now commodity year ic).1.data).map
        (fun row => row.volumeMmt)).sum) ∧
    (ic = true → (commodity = "soybeans" ∨ commodity = "soy_meal") →
      (get_monthly_exports s now commodity year ic).1.ytdToChinaMmt =
        some (pyRound 2 ((((get_monthly_exports s now commodity year ic).1.data).map
          (fun row => row.toChinaMt.getD 0)).sum / 1000000))) ∧
    ((ic = false ∨ ¬(commodity = "soybeans" ∨ commodity = "soy_meal")) →
      (get_monthly_exports s now commodity year ic).1.ytdToChinaMmt = none) := by
  have hresp : (get_monthly_exports s now commodity year ic).1 =
      monthly_exports_response commodity year ic now
        (get_monthly_exports_fallback commodity year now) := by
    simp [get_monthly_exports, hmiss]
  rw [hresp]
  have hdata : (monthly_exports_response commodity year ic now
      (get_monthly_exports_fallback commodity year now)).data =
      get_monthly_exports_fallback commodity year now := rfl
  rw [hdata]
  have hne : get_monthly_exports_fallback commodity year now ≠ [] := by
    intro h
    have := exports_fallback_length commodity year now
    rw [h] at this
    simp at this
  refine ⟨rfl, ?_, ?_⟩
  · intro hic hc
    subst hic
    have hpos : 0 < ((get_monthly_exports_fallback commodity year now).map
        (fun row => row.toChinaMt.getD 0)).sum := by
      apply List.sum_pos
      · intro x hx
        rw [List.mem_map] at hx
        obtain ⟨r, hr, hxr⟩ := hx
        subst hxr
        exact exports_fallback_toChinaMt_pos commodity year now hc hday r hr
      · simpa using hne
    have hsum_ne : ((get_monthly_exports_fallback commodity year now).map
        (fun row => row.toChinaMt.getD 0)).sum / 1000000 ≠ 0 := by
      apply ne_of_gt
      exact div_pos hpos (by norm_num)
    simp [monthly_exports_response, hsum_ne]
  · intro hcase
    rcases hcase with hic | hc
    · subst hic
      simp [monthly_exports_response]
    · have hzero : ((get_monthly_exports_fallback commodity year now).map
          (fun row => row.toChinaMt.getD 0)).sum = 0 := by
        apply List.sum_eq_zero
        intro x hx
        rw [List.mem_map] at hx
        obtain ⟨r, hr, hxr⟩ := hx
        subst hxr
        rw [exports_fallback_toChinaMt_none commodity year now hc r hr]
        rfl
      cases ic with
      | false => simp [monthly_exports_response]
      | true => simp [monthly_exports_response, hzero]

theorem exports_ytd_aggregation_witness :
    (dlookup initState.cache ("exports_" ++ "soybeans" ++ "_" ++ toString (2025 : ℤ)) =
       none) ∧ (1 ≤ sampleNow.day) ∧
    ((get_monthly_exports initState sampleNow "soybeans" 2025 true).1.ytdTotalMmt =
       pyRound 2 ((((get_monthly_exports initState sampleNow "soybeans" 2025
         true).1.data).map (fun row => row.volumeMmt)).sum) ∧
     (true = true → ("soybeans" = "soybeans" ∨ "soybeans" = "soy_meal") →
       (get_monthly_exports initState sampleNow "soybeans" 2025 true).1.ytdToChinaMmt =
         some (pyRound 2 ((((get_monthly_exports initState sampleNow "soybeans" 2025
           true).1.data).map (fun row => row.toChinaMt.getD 0)).sum / 1000000))) ∧
     ((true = false ∨ ¬("soybeans" = "soybeans" ∨ "soybeans" = "soy_meal")) →
       (get_monthly_exports initState sampleNow "soybeans" 2025 true).1.ytdToChinaMmt =
         none)) :=
  ⟨by decide, by decide,
   exports_ytd_aggregation initState sampleNow "soybeans" 2025 true (by decide) (by decide)⟩

/-! ### Month-over-month price change -/

theorem pyRound_zero (n : ℕ) : pyRound n 0 = 0 := by
  unfold pyRound roundHalfEven
  norm_num

theorem get_prices_fallback_eq (c : String) (y : ℤ) (loc : Option String) :
    get_prices_fallback c y loc =
      ((match loc with
        | some l => [l]
        | none => dkeys (prices_table c)).map (fun l =>
          (List.range ((dlookup (prices_table c) l).getD (List.replicate 12 100)).length).map
            (price_row y l ((dlookup (prices_table c) l).getD (List.replicate 12 100))))).flatten :=
  rfl

/-- C7: every returned price row's `momChangePct` is the one-decimal rounding
of `(current - previous) / previous * 100` against the preceding month of the
same location's series, and the first month of each series reports 0. -/
theorem prices_mom_change (commodity : String) (year : ℤ) (location : Option String)
    (r1 r2 : MonthlyPriceRow)
    (h1 : r1 ∈ get_prices_fallback commodity year location)
    (h2 : r2 ∈ get_prices_fallback commodity year location) :
    (r1.month = 1 → r1.momChangePct = 0) ∧
    (r2.location = r1.location → r2.month + 1 = r1.month →
      r1.momChangePct =
        pyRound 1 (((r1.priceBrl - r2.priceBrl) / r2.priceBrl) * 100)) := by
  rw [get_prices_fallback_eq, List.mem_flatten] at h1 h2
  obtain ⟨L1, hL1, hr1⟩ := h1
  obtain ⟨L2, hL2, hr2⟩ := h2
  rw [List.mem_map] at hL1 hL2
  obtain ⟨l1, hl1, hL1eq⟩ := hL1
  obtain ⟨l2, hl2, hL2eq⟩ := hL2
  subst hL1eq
  subst hL2eq
  rw [List.mem_map] at hr1 hr2
  obtain ⟨i1, hi1, hr1⟩ := hr1
  obtain ⟨i2, hi2, hr2⟩ := hr2
  rw [List.mem_range] at hi1 hi2
  subst hr1
  subst hr2
  constructor
  · intro hm1
    have hz : i1 = 0 := by
      simp [price_row] at hm1
      omega
    subst hz
    simp [price_row, pyRound_zero]
  · intro hloc hm
    have hl : l2 = l1 := by simpa [price_row] using hloc
    subst hl
    have hidx : i1 = i2 + 1 := by
      simp [price_row] at hm
      omega
    subst hidx
    simp only [price_row, Nat.add_sub_cancel, gt_iff_lt, Nat.succ_pos, if_true]
    split_ifs with hprev
    · rfl
    · rw [not_not] at hprev
      rw [hprev]
      simp

theorem prices_mom_change_witness :
    (samplePriceRowFeb ∈ get_prices_fallback "soybeans" 2025 none) ∧
    (samplePriceRowJan ∈ get_prices_fallback "soybeans" 2025 none) ∧
    ((samplePriceRowFeb.month = 1 → samplePriceRowFeb.momChangePct = 0) ∧
     (samplePriceRowJan.location = samplePriceRowFeb.location →
       samplePriceRowJan.month + 1 = samplePriceRowFeb.month →
       samplePriceRowFeb.momChangePct =
         pyRound 1 (((samplePriceRowFeb.priceBrl - samplePriceRowJan.priceBrl) /
           samplePriceRowJan.priceBrl) * 100))) :=
  ⟨by decide, by decide,
   prices_mom_change "soybeans" 2025 none samplePriceRowFeb samplePriceRowJan
     (by decide) (by decide)⟩

/-! ### Persistence round-trip -/

theorem digitChar_toNat : ∀ d < 10, (Nat.digitChar d).toNat - 48 = d := by decide

theorem padChars_length (w : ℕ) : ∀ n, (padChars w n).length = w := by
  induction w with
  | zero => intro n; rfl
  | succ w ih => intro n; simp [padChars, ih]

theorem padChars_foldl (w : ℕ) : ∀ n a, n < 10 ^ w →
    (padChars w n).foldl (fun a c => 10 * a + (c.toNat - 48)) a = a * 10 ^ w + n := by
  induction w with
  | zero =>
      intro n a h
      norm_num at h
      subst h
      simp [padChars]
  | succ w ih =>
      intro n a h
      have hdiv : n / 10 < 10 ^ w := by
        rw [Nat.div_lt_iff_lt_mul (by norm_num)]
        calc n < 10 ^ (w + 1) := h
        _ = 10 ^ w * 10 := by rw [pow_succ]
      simp only [padChars, List.foldl_append]
      rw [ih (n / 10) a hdiv]
      simp only [List.foldl_cons, List.foldl_nil]
      rw [digitChar_toNat (n % 10) (Nat.mod_lt _ (by norm_num))]
      rw [pow_succ, ← mul_assoc]
      generalize a * 10 ^ w = t
      omega

theorem parseFixed_padChars (w n : ℕ) (rest : List Char) (h : n < 10 ^ w) :
    parseFixed w (padChars w n ++ rest) = (n, rest) := by
  unfold parseFixed
  rw [List.take_left' (padChars_length w n), List.drop_left' (padChars_length w n)]
  rw [padChars_foldl w n 0 h]
  simp

theorem fromisoformat_isoformat (t : PyDateTime) (h : t.Valid) :
    PyDateTime.fromisoformat t.isoformat = some t := by
  obtain ⟨h1, h2, h3, h4, h5, h6, h7, h8, h9, h10⟩ := h
  show fromisoformatChars (isoformatChars t) = some t
  unfold isoformatChars fromisoformatChars
  rw [parseFixed_padChars 4 t.year _ (by omega)]
  simp only [expectChar, reduceIte, Option.some_bind]
  rw [parseFixed_padChars 2 t.month _ (by omega)]
  simp only [expectChar, reduceIte, Option.some_bind]
  rw [parseFixed_padChars 2 t.day _ (by omega)]
  simp only [expectChar, reduceIte, Option.some_bind]
  rw [parseFixed_padChars 2 t.hour _ (by omega)]
  simp only [expectChar, reduceIte, Option.some_bind]
  rw [parseFixed_padChars 2 t.minute _ (by omega)]
  simp only [expectChar, reduceIte, Option.some_bind]
  rw [parseFixed_padChars 2 t.second _ (by omega)]
  by_cases hm : t.microsecond = 0
  · rw [if_pos hm]
    have ht : (⟨t.year, t.month, t.day, t.hour, t.minute, t.second, 0⟩ : PyDateTime) = t := by
      rw [← hm]
    simp [ht]
  · rw [if_neg hm]
    rw [show padChars 6 t.microsecond = padChars 6 t.microsecond ++ [] from
      (List.append_nil _).symm]
    simp only [parseFixed_padChars 6 t.microsecond [] (by omega)]
    simp

theorem parse_last_updated_map (l : List (String × PyDateTime))
    (hv : ∀ kv ∈ l, (kv.2 : PyDateTime).Valid) :
    parse_last_updated (l.map (fun kv => (kv.1, kv.2.isoformat))) = some l := by
  induction l with
  | nil => rfl
  | cons hd tl ih =>
      obtain ⟨k, t⟩ := hd
      have hvt : t.Valid := hv (k, t) (by simp)
      have hvtl : ∀ kv ∈ tl, (kv.2 : PyDateTime).Valid := fun kv hkv => hv kv (by simp [hkv])
      simp only [List.map_cons, parse_last_updated, fromisoformat_isoformat t hvt, ih hvtl]

theorem foldl_dset_append (l : List (String × PyDateTime)) : ∀ (m : Dict PyDateTime),
    (dkeys l).Nodup → (∀ k ∈ dkeys l, k ∉ dkeys m) →
    l.foldl (fun m kt => dset m kt.1 kt.2) m = m ++ l := by
  induction l with
  | nil => intro m _ _; simp
  | cons hd tl ih =>
      intro m hnd hdisj
      obtain ⟨k, v⟩ := hd
      simp only [dkeys, List.map_cons, List.nodup_cons] at hnd
      obtain ⟨hk_not, hnd_tl⟩ := hnd
      simp only [List.foldl_cons]
      rw [dset_eq_append_of_not_mem v (hdisj k (by simp [dkeys]))]
      rw [ih (m ++ [(k, v)]) hnd_tl ?_]
      · simp
      · intro k' hk'
        have hmem : k' ∈ dkeys ((k, v) :: tl) := by
          simp only [dkeys, List.map_cons, List.mem_cons]
          exact Or.inr hk'
        have hnm : k' ∉ dkeys m := hdisj k' hmem
        have hne : k' ≠ k := by
          intro he
          subst he
          exact hk_not hk'
        rw [show dkeys (m ++ [(k, v)]) = dkeys m ++ [k] from List.map_append _ _ _]
        simp only [List.mem_append, List.mem_singleton, not_or]
        exact ⟨hnm, hne⟩

/-- C8: persistence round-trip — saving the cache plus last-updated map with
`_save_cache_to_disk` and reloading it with `_load_cache_from_disk` into a
fresh service reproduces the identical cache (keys and values) and the
identical timestamps, exactly recovered from their ISO-8601 serialization. -/
theorem cache_roundtrip (s : ServiceState)
    (hv : ∀ kv ∈ s.last_updated, (kv.2 : PyDateTime).Valid)
    (hnd : (dkeys s.last_updated).Nodup) :
    load_cache_from_disk initState (save_cache_to_disk s) =
      some { cache := s.cache, last_updated := s.last_updated, initialized := false } := by
  unfold load_cache_from_disk save_cache_to_disk
  rw [parse_last_updated_map s.last_updated hv]
  have hfold : s.last_updated.foldl (fun m kt => dset m kt.1 kt.2) ([] : Dict PyDateTime) =
      s.last_updated := by
    rw [foldl_dset_append s.last_updated [] hnd (by simp [dkeys])]
    simp
  simp [initState, hfold]

theorem cache_roundtrip_witness :
    (∀ kv ∈ sampleSavedState.last_updated, (kv.2 : PyDateTime).Valid) ∧
    (dkeys sampleSavedState.last_updated).Nodup ∧
    load_cache_from_disk initState (save_cache_to_disk sampleSavedState) =
      some { cache := sampleSavedState.cache,
             last_updated := sampleSavedState.last_updated, initialized := false } :=
  ⟨by decide, by decide, cache_roundtrip sampleSavedState (by decide) (by decide)⟩
